import Mathlib

/-!
Verification development for the e2e test suite of
cluster-openshift-controller-manager-operator.

The suite's one systemic piece is the poll-until-converged assertion
pattern: the TLS-propagation scenario (test/e2e, `testTLSSecurityProfilePropagation`)
mutates the APIServer TLS profile, then runs bounded poll sessions over
fetched cluster state until convergence predicates hold or a deadline
expires, and registers a log-only cleanup that restores the prior state.

We embed, faithfully to the source:
  - the observed-configuration JSON model and the nested field accessors
    used by the predicates (`unstructured.NestedString` and friends),
  - each convergence predicate of the scenario,
  - the scenario's and the cleanup's control flow.

The poller itself (`wait.PollUntilContextTimeout`, from k8s.io/apimachinery)
is not part of this repository's sources; it is modelled from the spec's
Convergence Poller contract (spec section 4.1), with time in abstract units
(seconds) and the immediate-first-check flag set to true as it is at every
call site.
-/

namespace OcmoE2E

/-! ## JSON values and the observed-configuration blob -/

/-- A JSON value, as produced by decoding the observed-configuration blob
(Go `json.Unmarshal` into `map[string]interface{}` and nested values). -/
inductive JValue where
  | null : JValue
  | bool (b : Bool) : JValue
  | num (n : Int) : JValue
  | str (s : String) : JValue
  | arr (xs : List JValue) : JValue
  | obj (fields : List (String × JValue)) : JValue

/-- First-match association lookup, modelling Go map indexing
(keys of a decoded JSON object are unique). -/
def lookupField : List (String × JValue) → String → Option JValue
  | [], _ => none
  | (k, v) :: fs, key => if k == key then some v else lookupField fs key

/-- Characters that the JSON renderer escapes (quote and backslash). -/
def escapeChar (c : Char) : List Char :=
  if c == Char.ofNat 34 || c == Char.ofNat 92 then [Char.ofNat 92, c] else [c]

/-- Escaped character data of a string literal in rendered JSON. -/
def escapeStr (s : String) : List Char :=
  s.data.flatMap escapeChar

/-- Rendered JSON string literal: a quoted, escaped string. -/
def renderStr (s : String) : List Char :=
  Char.ofNat 34 :: (escapeStr s ++ [Char.ofNat 34])

mutual

/-- Canonical rendering of a JSON value to character data, modelling the raw
serialized bytes of the observed-configuration blob. -/
def renderJ : JValue → List Char
  | .null => "null".data
  | .bool true => "true".data
  | .bool false => "false".data
  | .num n => (toString n).data
  | .str s => renderStr s
  | .arr xs => '[' :: (renderArr xs ++ [']'])
  | .obj fs => Char.ofNat 123 :: (renderObjFields fs ++ [Char.ofNat 125])

/-- Comma-separated rendering of JSON array elements. -/
def renderArr : List JValue → List Char
  | [] => []
  | [v] => renderJ v
  | v :: w :: vs => renderJ v ++ ',' :: renderArr (w :: vs)

/-- Comma-separated rendering of JSON object fields, each as a quoted key,
a colon, and the rendered value. -/
def renderObjFields : List (String × JValue) → List Char
  | [] => []
  | [(k, v)] => renderStr k ++ ':' :: renderJ v
  | (k, v) :: f :: fs => renderStr k ++ ':' :: renderJ v ++ ',' :: renderObjFields (f :: fs)

end

/-- The raw observed-configuration bytes (`cfg.Spec.ObservedConfig.Raw`):
either bytes that decode to a JSON object (represented by that object,
the bytes being its canonical rendering), or bytes that do not decode
to a JSON object. -/
inductive JRaw where
  | invalid (s : String) : JRaw
  | valid (fields : List (String × JValue)) : JRaw

/-- The raw bytes as a character string (Go `string(cfg.Spec.ObservedConfig.Raw)`). -/
def rawString : JRaw → List Char
  | .invalid s => s.data
  | .valid fs => renderJ (.obj fs)

/-- Go `json.Unmarshal(raw, &map[string]interface{})`: succeeds exactly on
bytes that decode to a JSON object. -/
def unmarshalObject : JRaw → Option (List (String × JValue))
  | .invalid _ => none
  | .valid fs => some fs

/-! ## Substring search (Go `strings.Contains`) -/

/-- Whether the first list is a leading segment of the second. -/
def leadMatch : List Char → List Char → Bool
  | [], _ => true
  | _ :: _, [] => false
  | a :: as, b :: bs => a == b && leadMatch as bs

/-- Whether the pattern occurs as a contiguous segment of the list. -/
def subSearch (pat : List Char) : List Char → Bool
  | [] => leadMatch pat []
  | c :: rest => leadMatch pat (c :: rest) || subSearch pat rest

/-- Go `strings.Contains(s, sub)` over character data. -/
def goContains (s sub : List Char) : Bool :=
  subSearch sub s

/-- The quoted-key literal the scenario searches the raw blob for,
for example the Go literal `"\"minTLSVersion\""`. -/
def quotedKey (k : String) : List Char :=
  Char.ofNat 34 :: (k.data ++ [Char.ofNat 34])

/-! ## Nested field accessors (k8s.io/apimachinery `unstructured`)

Modelled from the spec: the observed-configuration blob is "consumed by
unpacking named nested fields" (spec section 6); the accessor functions
`NestedFieldNoCopy`, `NestedString`, `NestedStringSlice` and `NestedMap`
belong to k8s.io/apimachinery and are not under src/. Each returns a value,
a found flag, and an optional error (a non-map intermediate value or a
final value of the wrong type). -/

/-- Walk a field path through a decoded JSON object: missing fields and a
null intermediate value report not-found without error; a non-map
intermediate value reports an error. -/
def nestedFieldNoCopy : List (String × JValue) → List String → Option JValue × Bool × Option String
  | obj, [] => (some (.obj obj), true, none)
  | obj, f :: rest =>
    match lookupField obj f with
    | none => (none, false, none)
    | some v =>
      match rest with
      | [] => (some v, true, none)
      | _ :: _ =>
        match v with
        | .obj m => nestedFieldNoCopy m rest
        | .null => (none, false, none)
        | _ => (none, false, some "accessor error: not a map")

/-- NestedString: the nested value must be a string. -/
def nestedString (obj : List (String × JValue)) (fields : List String) :
    String × Bool × Option String :=
  match nestedFieldNoCopy obj fields with
  | (some (.str s), true, none) => (s, true, none)
  | (some _, true, none) => ("", false, some "accessor error: expected string")
  | (_, found, e) => ("", found, e)

/-- Collect a list of JSON values as strings, failing on any non-string element. -/
def asStringList : List JValue → Option (List String)
  | [] => some []
  | .str s :: rest => (asStringList rest).map (fun ss => s :: ss)
  | _ :: _ => none

/-- NestedStringSlice: the nested value must be an array of strings. -/
def nestedStringSlice (obj : List (String × JValue)) (fields : List String) :
    List String × Bool × Option String :=
  match nestedFieldNoCopy obj fields with
  | (some (.arr xs), true, none) =>
    match asStringList xs with
    | some ss => (ss, true, none)
    | none => ([], false, some "accessor error: expected string element")
  | (some _, true, none) => ([], false, some "accessor error: expected string slice")
  | (_, found, e) => ([], found, e)

/-- NestedMap: the nested value must be an object. -/
def nestedMap (obj : List (String × JValue)) (fields : List String) :
    List (String × JValue) × Bool × Option String :=
  match nestedFieldNoCopy obj fields with
  | (some (.obj m), true, none) => (m, true, none)
  | (some _, true, none) => ([], false, some "accessor error: expected map")
  | (_, found, e) => ([], found, e)

/-! ## Cluster operator status and the APIServer resource -/

/-- One status condition of the clusteroperator (type, status and reason
read by the predicates). -/
structure ClusterCondition where
  type : String
  status : String
  reason : String
deriving DecidableEq

/-- The clusteroperator status: its list of conditions. -/
structure ClusterOperatorStatus where
  conditions : List ClusterCondition
deriving DecidableEq

/-- The spec half of a TLS profile carried by a Custom profile
(`configv1.TLSProfileSpec`). -/
structure TLSProfileSpec where
  ciphers : List String
  minTLSVersion : String
deriving DecidableEq

/-- `configv1.TLSSecurityProfile`: a profile type name plus the optional
Custom profile contents (the only per-type payload the model needs). -/
structure TLSSecurityProfile where
  type : String
  custom : Option TLSProfileSpec
deriving DecidableEq

/-- The APIServer resource spec: its TLS security profile. -/
structure APIServerSpec where
  tlsSecurityProfile : Option TLSSecurityProfile
deriving DecidableEq

/-- The APIServer custom resource. -/
structure APIServer where
  spec : APIServerSpec
deriving DecidableEq

/-! ## Convergence predicates of the scenario -/

/-- The pair a Go poll condition returns: `(done bool, err error)`. -/
structure PredResult where
  done : Bool
  err : Option String
deriving DecidableEq

/-- The accumulator pass over conditions in the reconciliation-complete
predicate: `(isAvailable, isProgressing, isDegraded)` updated exactly as the
source loop does. -/
def scanConditions : List ClusterCondition → Bool × Bool × Bool → Bool × Bool × Bool
  | [], acc => acc
  | c :: cs, (av, pr, dg) =>
    scanConditions cs
      ((if c.type == "Available" && c.status == "True" then true else av),
       (if c.type == "Progressing" && c.status == "False" then false else pr),
       (if c.type == "Degraded" && c.status == "True" then true else dg))

/-- The accumulator pass over conditions in the cleanup reconciliation
predicate: `(isAvailable, isProgressing)`, with no degraded check. -/
def scanAvailProgressing : List ClusterCondition → Bool × Bool → Bool × Bool
  | [], acc => acc
  | c :: cs, (av, pr) =>
    scanAvailProgressing cs
      ((if c.type == "Available" && c.status == "True" then true else av),
       (if c.type == "Progressing" && c.status == "False" then false else pr))

/-- Predicate of the first (progressing-detection) poll: a fetch error is
logged and reported as not-yet (false, nil); otherwise converge when some
condition has type Progressing with status True. -/
def progressingPredicate (fetch : Except String ClusterOperatorStatus) : PredResult :=
  match fetch with
  | .error _ => ⟨false, none⟩
  | .ok co =>
    if co.conditions.any (fun c => c.type == "Progressing" && c.status == "True") then
      ⟨true, none⟩
    else
      ⟨false, none⟩

/-- Predicate of the reconciliation-complete poll: a fetch error is
not-yet; a degraded operator is logged and not-yet; converge when available
and no longer progressing. -/
def reconcileCompletePredicate (fetch : Except String ClusterOperatorStatus) : PredResult :=
  match fetch with
  | .error _ => ⟨false, none⟩
  | .ok co =>
    let s := scanConditions co.conditions (false, true, false)
    if s.2.2 then ⟨false, none⟩
    else if s.1 && !s.2.1 then ⟨true, none⟩
    else ⟨false, none⟩

/-- Predicate of the cleanup reconciliation poll: like the
reconciliation-complete predicate but without the degraded check. -/
def cleanupReconcilePredicate (fetch : Except String ClusterOperatorStatus) : PredResult :=
  match fetch with
  | .error _ => ⟨false, none⟩
  | .ok co =>
    let s := scanAvailProgressing co.conditions (false, true)
    if s.1 && !s.2 then ⟨true, none⟩
    else ⟨false, none⟩

/-- The three Modern TLS 1.3 cipher suites the scenario expects. -/
def expectedCiphers : List String :=
  ["TLS_AES_128_GCM_SHA256", "TLS_AES_256_GCM_SHA384", "TLS_CHACHA20_POLY1305_SHA256"]

/-- Predicate of the observed-config verification poll: fetch errors,
raw blobs missing the quoted key literals, unmarshal failures and accessor
errors are all not-yet (false, nil); converge when servingInfo exists,
minTLSVersion equals VersionTLS13 exactly, and cipherSuites is a nonempty
string slice containing every expected Modern cipher. -/
def observedConfigPredicate (fetch : Except String JRaw) : PredResult :=
  match fetch with
  | .error _ => ⟨false, none⟩
  | .ok raw =>
    let observed := rawString raw
    let hasTLSVersion := goContains observed (quotedKey "minTLSVersion")
    let hasCipherSuites := goContains observed (quotedKey "cipherSuites")
    if !hasTLSVersion || !hasCipherSuites then ⟨false, none⟩
    else
      match unmarshalObject raw with
      | none => ⟨false, none⟩
      | some observedConfig =>
        let sm := nestedMap observedConfig ["servingInfo"]
        if sm.2.2.isSome || !sm.2.1 then ⟨false, none⟩
        else
          let ns := nestedString observedConfig ["servingInfo", "minTLSVersion"]
          if ns.2.2.isSome || !ns.2.1 || ns.1 == "" then ⟨false, none⟩
          else if ns.1 != "VersionTLS13" then ⟨false, none⟩
          else
            let css := nestedStringSlice observedConfig ["servingInfo", "cipherSuites"]
            if css.2.2.isSome || !css.2.1 || css.1.length == 0 then ⟨false, none⟩
            else if expectedCiphers.all (fun c => css.1.contains c) then ⟨true, none⟩
            else ⟨false, none⟩

/-- Predicate of the cleanup restoration-verification poll: fetch errors,
unmarshal failures and accessor errors are not-yet; with no saved original
profile, converge on VersionTLS12 or on no explicit version (absent or
empty); with a saved original profile, converge on a present version
different from VersionTLS13. -/
def restorationPredicate (originalTLSProfile : Option TLSSecurityProfile)
    (fetch : Except String JRaw) : PredResult :=
  match fetch with
  | .error _ => ⟨false, none⟩
  | .ok raw =>
    match unmarshalObject raw with
    | none => ⟨false, none⟩
    | some observedConfig =>
      let ns := nestedString observedConfig ["servingInfo", "minTLSVersion"]
      if ns.2.2.isSome then ⟨false, none⟩
      else
        match originalTLSProfile with
        | none =>
          if ns.2.1 && ns.1 == "VersionTLS12" then ⟨true, none⟩
          else if !ns.2.1 || ns.1 == "" then ⟨true, none⟩
          else ⟨false, none⟩
        | some _ =>
          if ns.2.1 && ns.1 != "VersionTLS13" then ⟨true, none⟩
          else ⟨false, none⟩

/-! ## The Convergence Poller

Modelled from the spec: `wait.PollUntilContextTimeout` (k8s.io/apimachinery)
is not under src/; the model follows the spec's Convergence Poller contract
(section 4.1) with the immediate-first-check flag true, as at every call
site. Checks happen at times 0, I, 2I, ...; a predicate error terminates
the session with that error; a true predicate terminates it converged; the
session times out with a deadline-exceeded error once the next check would
not happen strictly before the deadline. The fuel argument bounds the
recursion; deadline + 1 checks suffice for any positive interval. -/

/-- A terminal session error: the deadline expired, or the predicate itself
returned an error. -/
inductive PollErr where
  | deadlineExceeded : PollErr
  | predicateFailure (msg : String) : PollErr
deriving DecidableEq

/-- The terminal outcome of a poll session: whether it converged, its error,
and the elapsed time at which it ended. -/
structure PollOutcome where
  converged : Bool
  err : Option PollErr
  elapsed : Nat
deriving DecidableEq

/-- One session run from check index k, with bounded fuel. -/
def pollAux (interval deadline : Nat) (pred : Nat → PredResult) :
    Nat → Nat → PollOutcome
  | _, 0 => ⟨false, some .deadlineExceeded, deadline⟩
  | k, fuel + 1 =>
    let r := pred k
    match r.err with
    | some msg => ⟨r.done, some (.predicateFailure msg), k * interval⟩
    | none =>
      if r.done then ⟨true, none, k * interval⟩
      else if deadline ≤ (k + 1) * interval then ⟨false, some .deadlineExceeded, deadline⟩
      else pollAux interval deadline pred (k + 1) fuel

/-- A poll session with an immediate first check: the k-th predicate
invocation observes the state at time k * interval. -/
def pollUntilContextTimeout (interval deadline : Nat) (pred : Nat → PredResult) : PollOutcome :=
  pollAux interval deadline pred 0 (deadline + 1)

/-! ## The scenario and its cleanup -/

/-- The environment a scenario run observes: the setup fetch and update of
the APIServer resource, and one observation sequence per poll session. -/
structure ScenarioEnv where
  apiServerGet : Except String APIServer
  apiServerUpdate : Option String
  progressingObs : Nat → Except String ClusterOperatorStatus
  reconcileObs : Nat → Except String ClusterOperatorStatus
  configObs : Nat → Except String JRaw

/-- The terminal outcome of the scenario: a setup failure (require on the
initial get or update), an assertion failure (require on a poll outcome),
or a pass. -/
inductive ScenarioOutcome where
  | setupFailure (msg : String) : ScenarioOutcome
  | failed (msg : String) : ScenarioOutcome
  | passed : ScenarioOutcome
deriving DecidableEq

/-- The main flow of `testTLSSecurityProfilePropagation`: setup get and
update are asserted with require; the progressing-detection poll's error is
only logged; the reconciliation-complete and observed-config polls are
asserted with require, in that order. -/
def scenarioRun (env : ScenarioEnv) : ScenarioOutcome :=
  match env.apiServerGet with
  | .error _ => .setupFailure "failed to get APIServer config"
  | .ok _ =>
    match env.apiServerUpdate with
    | some _ => .setupFailure "failed to update APIServer TLS profile to Modern"
    | none =>
      let _r1 := pollUntilContextTimeout 5 300
        (fun k => progressingPredicate (env.progressingObs k))
      let r2 := pollUntilContextTimeout 10 900
        (fun k => reconcileCompletePredicate (env.reconcileObs k))
      match r2.err with
      | some _ => .failed "operator did not complete reconciliation"
      | none =>
        let r3 := pollUntilContextTimeout 5 120
          (fun k => observedConfigPredicate (env.configObs k))
        match r3.err with
        | some _ =>
          .failed "Modern TLS security profile from APIServer was not propagated to OpenShift Controller Manager observed config"
        | none => .passed

/-- The environment the cleanup function observes. -/
structure CleanupEnv where
  apiServerGet : Except String APIServer
  apiServerUpdate : Option String
  reconcileObs : Nat → Except String ClusterOperatorStatus
  restoreObs : Nat → Except String JRaw

/-- The outcome of the cleanup function: an assertion failure if it ever
asserted (it never does), and the diagnostic log line of the path taken. -/
structure CleanupResult where
  failedMsg : Option String
  logs : List String
deriving DecidableEq

/-- The cleanup registered by the scenario: every error path logs and
returns; no path asserts. -/
def runCleanup (originalTLSProfile : Option TLSSecurityProfile)
    (env : CleanupEnv) : CleanupResult :=
  match env.apiServerGet with
  | .error _ => ⟨none, ["failed to get APIServer for cleanup"]⟩
  | .ok _ =>
    match env.apiServerUpdate with
    | some _ => ⟨none, ["failed to restore original TLS profile"]⟩
    | none =>
      let r1 := pollUntilContextTimeout 10 600
        (fun k => cleanupReconcilePredicate (env.reconcileObs k))
      match r1.err with
      | some _ => ⟨none, ["operator did not complete reconciliation after restoration"]⟩
      | none =>
        let r2 := pollUntilContextTimeout 5 120
          (fun k => restorationPredicate originalTLSProfile (env.restoreObs k))
        match r2.err with
        | some _ => ⟨none, ["TLS profile was not properly restored in observed config"]⟩
        | none => ⟨none, []⟩

/-! ## Concrete sample data for witnesses and counterexamples -/

/-- An observed config carrying the fully propagated Modern TLS profile. -/
def modernFs : List (String × JValue) :=
  [("servingInfo", JValue.obj
    [("minTLSVersion", JValue.str "VersionTLS13"),
     ("cipherSuites", JValue.arr
       [JValue.str "TLS_AES_128_GCM_SHA256",
        JValue.str "TLS_AES_256_GCM_SHA384",
        JValue.str "TLS_CHACHA20_POLY1305_SHA256"])])]

/-- An observed config whose serving section reports VersionTLS11. -/
def tls11Fs : List (String × JValue) :=
  [("servingInfo", JValue.obj [("minTLSVersion", JValue.str "VersionTLS11")])]

/-- An observed config whose serving section reports VersionTLS12. -/
def tls12Fs : List (String × JValue) :=
  [("servingInfo", JValue.obj [("minTLSVersion", JValue.str "VersionTLS12")])]

/-- An observed config whose serving section reports VersionTLS10. -/
def tls10Fs : List (String × JValue) :=
  [("servingInfo", JValue.obj [("minTLSVersion", JValue.str "VersionTLS10")])]

/-- A clusteroperator status with no conditions at all. -/
def emptyStatus : ClusterOperatorStatus := ⟨[]⟩

/-- A clusteroperator status that is available and no longer progressing. -/
def readyStatus : ClusterOperatorStatus :=
  ⟨[⟨"Available", "True", ""⟩, ⟨"Progressing", "False", ""⟩]⟩

/-- A clusteroperator status that is available, not progressing, and degraded. -/
def degradedStatus : ClusterOperatorStatus :=
  ⟨[⟨"Available", "True", ""⟩, ⟨"Progressing", "False", ""⟩, ⟨"Degraded", "True", ""⟩]⟩

/-- A concrete APIServer resource with no TLS profile set. -/
def apiServerSample : APIServer := ⟨⟨none⟩⟩

/-- A custom TLS profile spec whose minimum version is VersionTLS12. -/
def sampleCustom : TLSProfileSpec := ⟨[], "VersionTLS12"⟩

/-- A saved original profile of Custom type with minimum VersionTLS12. -/
def sampleProfile : TLSSecurityProfile := ⟨"Custom", some sampleCustom⟩

/-- An environment in which the progressing-detection poll times out (the
operator never reports Progressing True) while the asserted polls converge
immediately. -/
def cexEnv : ScenarioEnv :=
  ⟨.ok apiServerSample, none,
   fun _ => .ok emptyStatus,
   fun _ => .ok readyStatus,
   fun _ => .ok (JRaw.valid modernFs)⟩

/-! ## Poller lemmas -/

/-- A session whose predicate is constantly (false, nil) ends, for any fuel
and start index, in the deadline-exceeded outcome at time deadline. -/
theorem pollAux_const_false (I D : Nat) (p : Nat → PredResult)
    (h : ∀ k, p k = ⟨false, none⟩) :
    ∀ fuel k, pollAux I D p k fuel = ⟨false, some .deadlineExceeded, D⟩ := by
  intro fuel
  induction fuel with
  | zero => intro k; rfl
  | succ n ih =>
    intro k
    simp only [pollAux, h k]
    rw [if_neg Bool.false_ne_true]
    split
    · rfl
    · exact ih (k + 1)

/-- A session whose predicate never returns an error has, for any fuel and
start index, an error that is nothing or deadline-exceeded. -/
theorem pollAux_err_cases (I D : Nat) (p : Nat → PredResult)
    (h : ∀ k, (p k).err = none) :
    ∀ fuel k, (pollAux I D p k fuel).err = none ∨
      (pollAux I D p k fuel).err = some .deadlineExceeded := by
  intro fuel
  induction fuel with
  | zero => intro k; right; rfl
  | succ n ih =>
    intro k
    simp only [pollAux, h k]
    split
    · left; rfl
    · split
      · right; rfl
      · exact ih (k + 1)

/-- A session whose predicate first holds at index k, with the k-th check
happening strictly before the deadline, converges at time k * interval. -/
theorem pollAux_first_true (I D k : Nat) (p : Nat → PredResult)
    (hI : 0 < I) (hk : k * I < D)
    (htrue : p k = ⟨true, none⟩)
    (hbefore : ∀ j, j < k → p j = ⟨false, none⟩) :
    ∀ fuel j, j ≤ k → k + 1 - j ≤ fuel →
      pollAux I D p j fuel = ⟨true, none, k * I⟩ := by
  intro fuel
  induction fuel with
  | zero => intro j hj hf; omega
  | succ n ih =>
    intro j hj hf
    rcases Nat.lt_or_eq_of_le hj with hlt | heq
    · simp only [pollAux, hbefore j hlt]
      have hno : ¬ D ≤ (j + 1) * I := by
        have : (j + 1) * I ≤ k * I := Nat.mul_le_mul_right I (by omega)
        omega
      rw [if_neg hno]
      exact ih (j + 1) (by omega) (by omega)
    · subst heq
      simp [pollAux, htrue]

/-! ## Error-swallowing of every scenario predicate -/

/-- The progressing-detection predicate never returns an error. -/
theorem progressingPredicate_err_none (x : Except String ClusterOperatorStatus) :
    (progressingPredicate x).err = none := by
  cases x with
  | error e => rfl
  | ok co =>
    simp only [progressingPredicate]
    split <;> rfl

/-- The reconciliation-complete predicate never returns an error. -/
theorem reconcileCompletePredicate_err_none (x : Except String ClusterOperatorStatus) :
    (reconcileCompletePredicate x).err = none := by
  cases x with
  | error e => rfl
  | ok co =>
    simp only [reconcileCompletePredicate]
    repeat' split
    all_goals rfl

/-- The cleanup reconciliation predicate never returns an error. -/
theorem cleanupReconcilePredicate_err_none (x : Except String ClusterOperatorStatus) :
    (cleanupReconcilePredicate x).err = none := by
  cases x with
  | error e => rfl
  | ok co =>
    simp only [cleanupReconcilePredicate]
    repeat' split
    all_goals rfl

/-- The observed-config verification predicate never returns an error. -/
theorem observedConfigPredicate_err_none (x : Except String JRaw) :
    (observedConfigPredicate x).err = none := by
  cases x with
  | error e => rfl
  | ok raw =>
    simp only [observedConfigPredicate]
    repeat' split
    all_goals rfl

/-- The restoration-verification predicate never returns an error. -/
theorem restorationPredicate_err_none (orig : Option TLSSecurityProfile)
    (x : Except String JRaw) :
    (restorationPredicate orig x).err = none := by
  cases x with
  | error e => rfl
  | ok raw =>
    simp only [restorationPredicate]
    repeat' split
    all_goals rfl

/-! ## Conditions scan lemma -/

/-- The degraded component of the condition scan: true exactly when the
accumulator starts true or some condition has type Degraded with status True. -/
theorem scanConditions_dg (cs : List ClusterCondition) (a p d : Bool) :
    (scanConditions cs (a, p, d)).2.2 =
      (d || cs.any (fun c => c.type == "Degraded" && c.status == "True")) := by
  induction cs generalizing a p d with
  | nil => simp [scanConditions]
  | cons c cs ih =>
    simp only [scanConditions, List.any_cons]
    rw [ih]
    cases h : (c.type == "Degraded" && c.status == "True") <;> simp [h]

/-- An observation whose conditions include Degraded with status True makes
the reconciliation-complete predicate return (false, nil). -/
theorem reconcile_degraded_false (co : ClusterOperatorStatus)
    (h : ∃ c ∈ co.conditions, c.type = "Degraded" ∧ c.status = "True") :
    reconcileCompletePredicate (.ok co) = ⟨false, none⟩ := by
  have hdg : (scanConditions co.conditions (false, true, false)).2.2 = true := by
    rw [scanConditions_dg]
    simp only [Bool.false_or, List.any_eq_true]
    obtain ⟨c, hc, h1, h2⟩ := h
    exact ⟨c, hc, by simp [h1, h2]⟩
  simp [reconcileCompletePredicate, hdg]

/-! ## Claim theorems: poll session behavior -/

/-- Claim C2: every poll session terminates: for all intervals I > 0 and
deadlines D > I, a session whose predicate always returns (false, nil) ends
in the single terminal outcome converged = false with a deadline-exceeded
error, at an elapsed time within D + I of its start. -/
theorem pollAlwaysFalseTimesOut (I D : Nat) (hI : 0 < I) (hD : I < D)
    (p : Nat → PredResult) (hp : ∀ k, p k = ⟨false, none⟩) :
    pollUntilContextTimeout I D p = ⟨false, some .deadlineExceeded, D⟩ ∧
      (pollUntilContextTimeout I D p).elapsed ≤ D + I := by
  unfold pollUntilContextTimeout
  rw [pollAux_const_false I D p hp]
  exact ⟨rfl, Nat.le_add_right D I⟩

/-- Witness for C2 at interval 1, deadline 2. -/
theorem pollAlwaysFalseTimesOutWitness :
    pollUntilContextTimeout 1 2 (fun _ => ⟨false, none⟩) =
        ⟨false, some .deadlineExceeded, 2⟩ ∧
      (pollUntilContextTimeout 1 2 (fun _ => ⟨false, none⟩)).elapsed ≤ 2 + 1 :=
  pollAlwaysFalseTimesOut 1 2 (by decide) (by decide) _ (fun _ => rfl)

/-- Claim C8: a predicate first true on its k-th tick with k * I < D makes
the session converge with nil error, at tick k, hence at or before tick
k + 1. -/
theorem pollConvergesAtFirstTrue (I D k : Nat) (hI : 0 < I) (hk : k * I < D)
    (p : Nat → PredResult) (htrue : p k = ⟨true, none⟩)
    (hbefore : ∀ j, j < k → p j = ⟨false, none⟩) :
    pollUntilContextTimeout I D p = ⟨true, none, k * I⟩ ∧ k * I ≤ (k + 1) * I := by
  constructor
  · unfold pollUntilContextTimeout
    refine pollAux_first_true I D k p hI hk htrue hbefore (D + 1) 0 (Nat.zero_le k) ?_
    have := Nat.le_mul_of_pos_right k hI
    omega
  · exact Nat.mul_le_mul_right I (Nat.le_succ k)

/-- Witness for C8: a predicate first true at tick 1 with interval 2 and
deadline 5. -/
theorem pollConvergesAtFirstTrueWitness :
    pollUntilContextTimeout 2 5 (fun j => if j == 1 then ⟨true, none⟩ else ⟨false, none⟩) =
        ⟨true, none, 1 * 2⟩ ∧ 1 * 2 ≤ (1 + 1) * 2 :=
  pollConvergesAtFirstTrue 2 5 1 (by decide) (by decide) _ rfl
    (fun j hj => by
      have hj0 : j = 0 := by omega
      subst hj0
      rfl)

/-- Claim C9: a session whose predicate is already true on the first check
converges immediately (elapsed time 0, before any sleep), and a second run
whose first observation agrees yields the same immediate outcome: the
session's result depends only on that first check. -/
theorem pollImmediateTrueIdempotent (I D : Nat) (p q : Nat → PredResult)
    (hp : p 0 = ⟨true, none⟩) (hq : q 0 = p 0) :
    pollUntilContextTimeout I D p = ⟨true, none, 0⟩ ∧
      pollUntilContextTimeout I D q = ⟨true, none, 0⟩ := by
  have gen : ∀ r : Nat → PredResult, r 0 = ⟨true, none⟩ →
      pollUntilContextTimeout I D r = ⟨true, none, 0⟩ := by
    intro r hr
    unfold pollUntilContextTimeout
    simp [pollAux, hr]
  exact ⟨gen p hp, gen q (hq.trans hp)⟩

/-- Witness for C9 at interval 3, deadline 10. -/
theorem pollImmediateTrueIdempotentWitness :
    pollUntilContextTimeout 3 10 (fun _ => ⟨true, none⟩) = ⟨true, none, 0⟩ ∧
      pollUntilContextTimeout 3 10 (fun _ => ⟨true, none⟩) = ⟨true, none, 0⟩ :=
  pollImmediateTrueIdempotent 3 10 _ _ rfl rfl

/-- Claim C1: fetch errors inside a predicate never terminate a session
early: every scenario predicate maps a failed Get to (false, nil); no
scenario predicate ever returns an error on any input (failed unmarshals
and field reads included); a session over an error-free predicate ends
error-free or deadline-exceeded; and a predicate whose fetch errors on
every invocation leads to the deadline timeout, never to a propagated
fetch error. -/
theorem fetchErrorsNeverPropagate :
    (∀ e, progressingPredicate (.error e) = ⟨false, none⟩) ∧
    (∀ e, reconcileCompletePredicate (.error e) = ⟨false, none⟩) ∧
    (∀ e, cleanupReconcilePredicate (.error e) = ⟨false, none⟩) ∧
    (∀ e, observedConfigPredicate (.error e) = ⟨false, none⟩) ∧
    (∀ e orig, restorationPredicate orig (.error e) = ⟨false, none⟩) ∧
    (∀ x, (progressingPredicate x).err = none) ∧
    (∀ x, (reconcileCompletePredicate x).err = none) ∧
    (∀ x, (cleanupReconcilePredicate x).err = none) ∧
    (∀ x, (observedConfigPredicate x).err = none) ∧
    (∀ orig x, (restorationPredicate orig x).err = none) ∧
    (∀ I D : Nat, ∀ p : Nat → PredResult, (∀ k, (p k).err = none) →
      (pollUntilContextTimeout I D p).err = none ∨
        (pollUntilContextTimeout I D p).err = some .deadlineExceeded) ∧
    (∀ I D : Nat, ∀ obs : Nat → Except String ClusterOperatorStatus,
      (∀ k, ∃ e, obs k = .error e) →
      pollUntilContextTimeout I D (fun k => progressingPredicate (obs k)) =
        ⟨false, some .deadlineExceeded, D⟩) ∧
    (∀ I D : Nat, ∀ obs : Nat → Except String JRaw,
      (∀ k, ∃ e, obs k = .error e) →
      pollUntilContextTimeout I D (fun k => observedConfigPredicate (obs k)) =
        ⟨false, some .deadlineExceeded, D⟩) := by
  refine ⟨fun e => rfl, fun e => rfl, fun e => rfl, fun e => rfl, fun e orig => rfl,
    progressingPredicate_err_none, reconcileCompletePredicate_err_none,
    cleanupReconcilePredicate_err_none, observedConfigPredicate_err_none,
    fun orig x => restorationPredicate_err_none orig x,
    fun I D p hp => pollAux_err_cases I D p hp (D + 1) 0,
    fun I D obs hobs => ?_, fun I D obs hobs => ?_⟩
  · refine pollAux_const_false I D _ (fun k => ?_) (D + 1) 0
    show progressingPredicate (obs k) = ⟨false, none⟩
    obtain ⟨e, he⟩ := hobs k
    rw [he]
    rfl
  · refine pollAux_const_false I D _ (fun k => ?_) (D + 1) 0
    show observedConfigPredicate (obs k) = ⟨false, none⟩
    obtain ⟨e, he⟩ := hobs k
    rw [he]
    rfl

/-- Witness for C1: a concrete erroring fetch is swallowed and an
always-erroring fetch times the session out. -/
theorem fetchErrorsNeverPropagateWitness :
    progressingPredicate (.error "boom") = ⟨false, none⟩ ∧
      pollUntilContextTimeout 1 3 (fun _ => observedConfigPredicate (.error "boom")) =
        ⟨false, some .deadlineExceeded, 3⟩ :=
  ⟨fetchErrorsNeverPropagate.1 "boom",
   fetchErrorsNeverPropagate.2.2.2.2.2.2.2.2.2.2.2.2 1 3 (fun _ => .error "boom")
     (fun _ => ⟨"boom", rfl⟩)⟩

/-! ## Claim theorems: scenario and cleanup control flow -/

/-- Claim C5: no error or timeout during the cleanup phase (failed re-fetch
or update of the APIServer, failed post-restoration reconciliation poll, or
timed-out restoration-verification poll) ever causes the test to fail:
every path only logs and returns without asserting. -/
theorem cleanupNeverFails (orig : Option TLSSecurityProfile) (env : CleanupEnv) :
    (runCleanup orig env).failedMsg = none := by
  simp only [runCleanup]
  repeat' split
  all_goals rfl

/-- Claim C7: an observation whose Degraded condition is True makes the
reconciliation-complete predicate return (false, nil) — even when Available
is True and Progressing is False — and a session seeing only degraded
observations polls on to the deadline timeout. -/
theorem degradedObservationNeverConverges (co : ClusterOperatorStatus)
    (h : ∃ c ∈ co.conditions, c.type = "Degraded" ∧ c.status = "True") :
    reconcileCompletePredicate (.ok co) = ⟨false, none⟩ ∧
    (∀ I D : Nat, ∀ obs : Nat → Except String ClusterOperatorStatus,
      (∀ k, ∃ co2, obs k = .ok co2 ∧
        ∃ c ∈ co2.conditions, c.type = "Degraded" ∧ c.status = "True") →
      pollUntilContextTimeout I D (fun k => reconcileCompletePredicate (obs k)) =
        ⟨false, some .deadlineExceeded, D⟩) := by
  refine ⟨reconcile_degraded_false co h, fun I D obs hobs => ?_⟩
  refine pollAux_const_false I D _ (fun k => ?_) (D + 1) 0
  show reconcileCompletePredicate (obs k) = ⟨false, none⟩
  obtain ⟨co2, he, hdeg⟩ := hobs k
  rw [he]
  exact reconcile_degraded_false co2 hdeg

/-- Witness for C7: a status that is available and not progressing but
degraded does not converge, and an all-degraded session times out. -/
theorem degradedObservationNeverConvergesWitness :
    reconcileCompletePredicate (.ok degradedStatus) = ⟨false, none⟩ ∧
      pollUntilContextTimeout 1 2 (fun _ => reconcileCompletePredicate (.ok degradedStatus)) =
        ⟨false, some .deadlineExceeded, 2⟩ := by
  have hdeg : ∃ c ∈ degradedStatus.conditions, c.type = "Degraded" ∧ c.status = "True" := by
    refine ⟨⟨"Degraded", "True", ""⟩, ?_, rfl, rfl⟩
    simp [degradedStatus]
  have h := degradedObservationNeverConverges degradedStatus hdeg
  exact ⟨h.1, h.2 1 2 (fun _ => .ok degradedStatus) (fun _ => ⟨degradedStatus, rfl, hdeg⟩)⟩

/-- Claim C10: with a non-nil saved original profile the restoration
predicate never consults the profile's contents — its verdict is the same
for every pair of profiles — and in particular it accepts an observed
minTLSVersion that differs from the original profile's actual minimum
version. -/
theorem restorationIgnoresOriginalProfileValue :
    (∀ p q : TLSSecurityProfile, ∀ f : Except String JRaw,
      restorationPredicate (some p) f = restorationPredicate (some q) f) ∧
    restorationPredicate (some sampleProfile) (.ok (JRaw.valid tls10Fs)) = ⟨true, none⟩ ∧
    nestedString tls10Fs ["servingInfo", "minTLSVersion"] = ("VersionTLS10", true, none) ∧
    sampleProfile.custom = some sampleCustom ∧
    "VersionTLS10" ≠ sampleCustom.minTLSVersion := by
  refine ⟨fun p q f => ?_, by decide, by decide, rfl, by decide⟩
  cases f with
  | error e => rfl
  | ok raw => cases raw <;> rfl

/-! ## Substring-search lemmas -/

/-- A list leads any extension of itself. -/
theorem leadMatch_append (s t : List Char) : leadMatch s (s ++ t) = true := by
  induction s with
  | nil => rfl
  | cons c cs ih => simp [leadMatch, ih]

/-- The pattern is found at the head of any extension of itself. -/
theorem subSearch_self (s b : List Char) : subSearch s (s ++ b) = true := by
  cases s with
  | nil =>
    cases b with
    | nil => rfl
    | cons c bs => simp [subSearch, leadMatch]
  | cons c cs =>
    show (leadMatch (c :: cs) ((c :: cs) ++ b) || subSearch (c :: cs) (cs ++ b)) = true
    rw [leadMatch_append]
    simp

/-- Search succeeds after prepending one character. -/
theorem subSearch_cons (pat : List Char) (c : Char) (l : List Char)
    (h : subSearch pat l = true) : subSearch pat (c :: l) = true := by
  simp [subSearch, h]

/-- Search succeeds on any list that decomposes around the pattern. -/
theorem subSearch_of_split (pat a b : List Char) :
    subSearch pat (a ++ pat ++ b) = true := by
  induction a with
  | nil => simpa using subSearch_self pat b
  | cons c as ih =>
    simp only [List.cons_append]
    exact subSearch_cons _ c _ ih

/-- Split decompositions compose through an intermediate segment. -/
theorem split_trans (l m s : List Char)
    (h1 : ∃ a b, l = a ++ m ++ b) (h2 : ∃ c d, m = c ++ s ++ d) :
    ∃ a b, l = a ++ s ++ b := by
  obtain ⟨a, b, rfl⟩ := h1
  obtain ⟨c, d, rfl⟩ := h2
  exact ⟨a ++ c, d ++ b, by simp [List.append_assoc]⟩

/-! ## Occurrence of looked-up fields in the rendered blob -/

/-- A field found by lookup occurs in the rendered object fields as the
segment quoted-key, colon, rendered value. -/
theorem renderObjFields_split (fs : List (String × JValue)) (k : String) (v : JValue)
    (h : lookupField fs k = some v) :
    ∃ a b, renderObjFields fs = a ++ (renderStr k ++ ':' :: renderJ v) ++ b := by
  induction fs with
  | nil => simp [lookupField] at h
  | cons f fs ih =>
    obtain ⟨k0, v0⟩ := f
    rw [lookupField] at h
    by_cases hk : k0 == k
    · rw [if_pos hk] at h
      obtain rfl : v0 = v := by injection h
      obtain rfl : k0 = k := by simpa using hk
      cases fs with
      | nil => exact ⟨[], [], by simp [renderObjFields]⟩
      | cons f1 fs1 =>
        refine ⟨[], ',' :: renderObjFields (f1 :: fs1), ?_⟩
        simp [renderObjFields, List.append_assoc]
    · rw [if_neg hk] at h
      obtain ⟨a, b, heq⟩ := ih h
      cases fs with
      | nil => simp [lookupField] at h
      | cons f1 fs1 =>
        refine ⟨renderStr k0 ++ ':' :: renderJ v0 ++ [','] ++ a, b, ?_⟩
        simp [renderObjFields, heq, List.append_assoc]

/-- A field found by lookup occurs in the rendered object as the segment
quoted-key, colon, rendered value. -/
theorem renderJ_obj_split (fs : List (String × JValue)) (k : String) (v : JValue)
    (h : lookupField fs k = some v) :
    ∃ a b, renderJ (.obj fs) = a ++ (renderStr k ++ ':' :: renderJ v) ++ b := by
  obtain ⟨a, b, heq⟩ := renderObjFields_split fs k v h
  refine ⟨Char.ofNat 123 :: a, b ++ [Char.ofNat 125], ?_⟩
  simp [renderJ, heq, List.append_assoc]

/-- The quoted key of a looked-up field occurs in the rendered object,
provided the key needs no escaping. -/
theorem quotedKey_in_renderJ (fs : List (String × JValue)) (k : String) (v : JValue)
    (hk : escapeStr k = k.data) (h : lookupField fs k = some v) :
    ∃ a b, renderJ (.obj fs) = a ++ quotedKey k ++ b := by
  refine split_trans _ _ _ (renderJ_obj_split fs k v h) ⟨[], ':' :: renderJ v, ?_⟩
  simp [renderStr, quotedKey, hk, List.append_assoc]

/-- The rendered value of a looked-up field occurs in the rendered object. -/
theorem renderJ_value_split (fs : List (String × JValue)) (k : String) (v : JValue)
    (h : lookupField fs k = some v) :
    ∃ a b, renderJ (.obj fs) = a ++ renderJ v ++ b := by
  refine split_trans _ _ _ (renderJ_obj_split fs k v h) ⟨renderStr k ++ [':'], [], ?_⟩
  simp [List.append_assoc]

/-- The raw bytes of a decoded observed config contain the quoted key of any
field of a nested object, as searched for by the scenario. -/
theorem goContains_nested_key (fs sfs : List (String × JValue)) (k0 k : String) (v : JValue)
    (hk : escapeStr k = k.data)
    (h0 : lookupField fs k0 = some (.obj sfs)) (h : lookupField sfs k = some v) :
    goContains (rawString (JRaw.valid fs)) (quotedKey k) = true := by
  have h3 := split_trans _ _ _ (renderJ_value_split fs k0 (.obj sfs) h0)
    (quotedKey_in_renderJ sfs k v hk h)
  obtain ⟨a, b, heq⟩ := h3
  show subSearch (quotedKey k) (renderJ (.obj fs)) = true
  rw [heq]
  exact subSearch_of_split _ a b

/-! ## Inversion and evaluation of two-level nested accessors -/

/-- A successful NestedString read along a two-field path pins the shape of
the decoded config: the first field is an object whose second field is the
returned string. -/
theorem nestedString_pair_inv (fs : List (String × JValue)) (k1 k2 s : String)
    (h : nestedString fs [k1, k2] = (s, true, none)) :
    ∃ m, lookupField fs k1 = some (.obj m) ∧ lookupField m k2 = some (.str s) := by
  cases h1 : lookupField fs k1 with
  | none => simp [nestedString, nestedFieldNoCopy, h1] at h
  | some v =>
    cases v with
    | obj m =>
      cases h2 : lookupField m k2 with
      | none => simp [nestedString, nestedFieldNoCopy, h1, h2] at h
      | some w =>
        cases w with
        | str s0 =>
          simp [nestedString, nestedFieldNoCopy, h1, h2] at h
          subst h
          exact ⟨m, rfl, h2⟩
        | null => simp [nestedString, nestedFieldNoCopy, h1, h2] at h
        | bool b => simp [nestedString, nestedFieldNoCopy, h1, h2] at h
        | num n => simp [nestedString, nestedFieldNoCopy, h1, h2] at h
        | arr xs => simp [nestedString, nestedFieldNoCopy, h1, h2] at h
        | obj m2 => simp [nestedString, nestedFieldNoCopy, h1, h2] at h
    | null => simp [nestedString, nestedFieldNoCopy, h1] at h
    | str s0 => simp [nestedString, nestedFieldNoCopy, h1] at h
    | num n => simp [nestedString, nestedFieldNoCopy, h1] at h
    | bool b => simp [nestedString, nestedFieldNoCopy, h1] at h
    | arr xs => simp [nestedString, nestedFieldNoCopy, h1] at h

/-- A successful NestedStringSlice read along a two-field path pins the
shape of the decoded config: the first field is an object whose second
field is an array collecting to the returned strings. -/
theorem nestedStringSlice_pair_inv (fs : List (String × JValue)) (k1 k2 : String)
    (cs : List String) (h : nestedStringSlice fs [k1, k2] = (cs, true, none)) :
    ∃ m xs, lookupField fs k1 = some (.obj m) ∧ lookupField m k2 = some (.arr xs) ∧
      asStringList xs = some cs := by
  cases h1 : lookupField fs k1 with
  | none => simp [nestedStringSlice, nestedFieldNoCopy, h1] at h
  | some v =>
    cases v with
    | obj m =>
      cases h2 : lookupField m k2 with
      | none => simp [nestedStringSlice, nestedFieldNoCopy, h1, h2] at h
      | some w =>
        cases w with
        | arr xs =>
          cases h3 : asStringList xs with
          | none => simp [nestedStringSlice, nestedFieldNoCopy, h1, h2, h3] at h
          | some ss =>
            simp [nestedStringSlice, nestedFieldNoCopy, h1, h2, h3] at h
            subst h
            exact ⟨m, xs, rfl, h2, h3⟩
        | null => simp [nestedStringSlice, nestedFieldNoCopy, h1, h2] at h
        | bool b => simp [nestedStringSlice, nestedFieldNoCopy, h1, h2] at h
        | num n => simp [nestedStringSlice, nestedFieldNoCopy, h1, h2] at h
        | str s0 => simp [nestedStringSlice, nestedFieldNoCopy, h1, h2] at h
        | obj m2 => simp [nestedStringSlice, nestedFieldNoCopy, h1, h2] at h
    | null => simp [nestedStringSlice, nestedFieldNoCopy, h1] at h
    | str s0 => simp [nestedStringSlice, nestedFieldNoCopy, h1] at h
    | num n => simp [nestedStringSlice, nestedFieldNoCopy, h1] at h
    | bool b => simp [nestedStringSlice, nestedFieldNoCopy, h1] at h
    | arr xs => simp [nestedStringSlice, nestedFieldNoCopy, h1] at h

/-- NestedMap on a single-field path whose field is an object. -/
theorem nestedMap_single_eval (fs m : List (String × JValue)) (k : String)
    (h : lookupField fs k = some (.obj m)) :
    nestedMap fs [k] = (m, true, none) := by
  simp [nestedMap, nestedFieldNoCopy, h]

/-- An early predicate branch equals (true, nil) exactly when its guard is
false and the rest equals (true, nil). -/
theorem ite_false_eq_true (c : Bool) (x : PredResult) :
    ((if c then (⟨false, none⟩ : PredResult) else x) = ⟨true, none⟩) ↔
      (c = false ∧ x = ⟨true, none⟩) := by
  cases c <;> simp

/-- The final predicate branch equals (true, nil) exactly when its guard is
true. -/
theorem ite_true_eq_true (c : Bool) :
    ((if c then (⟨true, none⟩ : PredResult) else ⟨false, none⟩) = ⟨true, none⟩) ↔
      c = true := by
  cases c <;> simp

/-- Claim C4: the observed-config verification predicate converges exactly
when the decoded config's servingInfo section reports minTLSVersion equal
to VersionTLS13 and its cipherSuites string slice contains every one of the
three Modern-profile ciphers — a subset check, extra ciphers tolerated. -/
theorem observedConfigPredicateIff (fs : List (String × JValue)) :
    observedConfigPredicate (.ok (JRaw.valid fs)) = ⟨true, none⟩ ↔
      (nestedString fs ["servingInfo", "minTLSVersion"] = ("VersionTLS13", true, none) ∧
       ∃ cs, nestedStringSlice fs ["servingInfo", "cipherSuites"] = (cs, true, none) ∧
         ∀ c ∈ expectedCiphers, c ∈ cs) := by
  constructor
  · intro h
    rcases hns : nestedString fs ["servingInfo", "minTLSVersion"] with ⟨v, fnd, e⟩
    rcases hss : nestedStringSlice fs ["servingInfo", "cipherSuites"] with ⟨cs, fnd2, e2⟩
    simp only [observedConfigPredicate, unmarshalObject, hns, hss] at h
    rw [ite_false_eq_true, ite_false_eq_true, ite_false_eq_true, ite_false_eq_true,
      ite_false_eq_true, ite_true_eq_true] at h
    obtain ⟨hc12, hsm, hns3, hne, hcss, hall⟩ := h
    simp at hns3 hne hcss hall
    obtain ⟨⟨he, hfnd⟩, hv0⟩ := hns3
    obtain ⟨⟨he2, hfnd2⟩, hlen⟩ := hcss
    subst he hfnd he2 hfnd2 hne
    exact ⟨rfl, cs, rfl, hall⟩
  · rintro ⟨hns, cs, hss, hmem⟩
    obtain ⟨m, hm1, hm2⟩ := nestedString_pair_inv fs _ _ _ hns
    obtain ⟨m2, xs, hs1, hs2, hs3⟩ := nestedStringSlice_pair_inv fs _ _ cs hss
    rw [hm1] at hs1
    simp only [Option.some.injEq, JValue.obj.injEq] at hs1
    subst hs1
    have hc1 := goContains_nested_key fs m "servingInfo" "minTLSVersion"
      (.str "VersionTLS13") (by decide) hm1 hm2
    have hc2 := goContains_nested_key fs m "servingInfo" "cipherSuites"
      (.arr xs) (by decide) hm1 hs2
    have hnm := nestedMap_single_eval fs m "servingInfo" hm1
    have hne0 : cs ≠ [] := by
      intro hnil
      have hx := hmem "TLS_AES_128_GCM_SHA256" (by simp [expectedCiphers])
      rw [hnil] at hx
      simp at hx
    simp only [observedConfigPredicate, unmarshalObject]
    rw [ite_false_eq_true, ite_false_eq_true, ite_false_eq_true, ite_false_eq_true,
      ite_false_eq_true, ite_true_eq_true]
    refine ⟨?_, ?_, ?_, ?_, ?_, ?_⟩
    · simp [hc1, hc2]
    · simp [hnm]
    · rw [hns]
      decide
    · rw [hns]
      decide
    · rw [hss]
      simp [hne0, List.length_eq_zero]
    · rw [hss]
      simp only [List.all_eq_true]
      intro c hc
      simpa using hmem c hc

/-- A session over a predicate that never errors ends error-free or with
the deadline-exceeded error. -/
theorem poll_err_cases (I D : Nat) (p : Nat → PredResult) (h : ∀ k, (p k).err = none) :
    (pollUntilContextTimeout I D p).err = none ∨
      (pollUntilContextTimeout I D p).err = some .deadlineExceeded :=
  pollAux_err_cases I D p h (D + 1) 0

/-- Counterexample to claim C6 as stated: with a nil saved profile the
predicate rejects an observed minTLSVersion of VersionTLS11 although that
version is present and differs from the VersionTLS13 marker, so
convergence is not equivalent to "no longer VersionTLS13 or no explicit
version" for every saved profile. -/
theorem restorationNilRejectsTLS11 :
    nestedString tls11Fs ["servingInfo", "minTLSVersion"] = ("VersionTLS11", true, none) ∧
      "VersionTLS11" ≠ "VersionTLS13" ∧
      restorationPredicate none (.ok (JRaw.valid tls11Fs)) = ⟨false, none⟩ :=
  ⟨by decide, by decide, by decide⟩

/-- Claim C6 (amended): the restoration-verification predicate branches on
the saved profile: when the minTLSVersion read succeeds, a nil profile
converges exactly on VersionTLS12 or on no explicit version (field absent
or empty), while a non-nil profile converges exactly on a present version
different from VersionTLS13; a failed read never converges. -/
theorem restorationPredicateCharacterization (fs : List (String × JValue))
    (orig : Option TLSSecurityProfile) (v : String) (fnd : Bool) (e : Option String)
    (h : nestedString fs ["servingInfo", "minTLSVersion"] = (v, fnd, e)) :
    restorationPredicate orig (.ok (JRaw.valid fs)) = ⟨true, none⟩ ↔
      (e = none ∧
        ((orig = none ∧ ((fnd = true ∧ v = "VersionTLS12") ∨ fnd = false ∨ v = "")) ∨
         (∃ p, orig = some p ∧ fnd = true ∧ v ≠ "VersionTLS13"))) := by
  simp only [restorationPredicate, unmarshalObject, h]
  cases orig with
  | none =>
    cases e with
    | some err => simp
    | none =>
      by_cases h12 : v = "VersionTLS12"
      · subst h12
        cases fnd <;> simp
      · by_cases hemp : v = ""
        · subst hemp
          cases fnd <;> simp
        · cases fnd <;> simp [h12, hemp]
  | some p =>
    cases e with
    | some err => simp
    | none =>
      by_cases h13 : v = "VersionTLS13"
      · subst h13
        cases fnd <;> simp
      · cases fnd <;> simp [h13]

/-- Witness for the amended C6: a nil profile converges on an observed
VersionTLS12. -/
theorem restorationPredicateCharacterizationWitness :
    restorationPredicate none (.ok (JRaw.valid tls12Fs)) = ⟨true, none⟩ :=
  (restorationPredicateCharacterization tls12Fs none "VersionTLS12" true none (by decide)).mpr
    ⟨rfl, Or.inl ⟨rfl, Or.inl ⟨rfl, rfl⟩⟩⟩

/-- Counterexample to claim C3 as stated: in an environment where the
progressing-detection poll — a primary, non-cleanup session — times out
while the asserted polls converge immediately, the scenario passes rather
than failing. -/
theorem scenarioProgressingTimeoutStillPasses :
    (pollUntilContextTimeout 5 300 (fun k => progressingPredicate (cexEnv.progressingObs k))).err =
        some PollErr.deadlineExceeded ∧
      scenarioRun cexEnv = ScenarioOutcome.passed :=
  ⟨by decide, by decide⟩

/-- Claim C3 (amended): with setup successful, the scenario passes exactly
when the asserted reconciliation-complete and observed-config polls end
error-free; a timeout of either surfaces as the corresponding descriptive
test failure; the initial progressing-detection poll's outcome is only
logged and never fails the scenario. -/
theorem scenarioFailuresFromAssertedPolls (env : ScenarioEnv) (a : APIServer)
    (hget : env.apiServerGet = Except.ok a) (hupd : env.apiServerUpdate = none) :
    (scenarioRun env = ScenarioOutcome.passed ↔
      ((pollUntilContextTimeout 10 900
          (fun k => reconcileCompletePredicate (env.reconcileObs k))).err = none ∧
       (pollUntilContextTimeout 5 120
          (fun k => observedConfigPredicate (env.configObs k))).err = none)) ∧
    (∀ msg, scenarioRun env = ScenarioOutcome.failed msg →
      (msg = "operator did not complete reconciliation" ∧
        (pollUntilContextTimeout 10 900
          (fun k => reconcileCompletePredicate (env.reconcileObs k))).err =
            some PollErr.deadlineExceeded) ∨
      (msg = "Modern TLS security profile from APIServer was not propagated to OpenShift Controller Manager observed config" ∧
        (pollUntilContextTimeout 5 120
          (fun k => observedConfigPredicate (env.configObs k))).err =
            some PollErr.deadlineExceeded)) := by
  have hr2 := poll_err_cases 10 900 (fun k => reconcileCompletePredicate (env.reconcileObs k))
    (fun k => reconcileCompletePredicate_err_none _)
  have hr3 := poll_err_cases 5 120 (fun k => observedConfigPredicate (env.configObs k))
    (fun k => observedConfigPredicate_err_none _)
  cases h2 : (pollUntilContextTimeout 10 900
      (fun k => reconcileCompletePredicate (env.reconcileObs k))).err with
  | some e2 =>
    rw [h2] at hr2
    simp only [reduceCtorEq, Option.some.injEq, false_or] at hr2
    subst hr2
    have hs : scenarioRun env = ScenarioOutcome.failed "operator did not complete reconciliation" := by
      simp [scenarioRun, hget, hupd, h2]
    rw [hs]
    constructor
    · simp
    · intro msg hmsg
      left
      refine ⟨?_, rfl⟩
      injection hmsg with hh
      exact hh.symm
  | none =>
    cases h3 : (pollUntilContextTimeout 5 120
        (fun k => observedConfigPredicate (env.configObs k))).err with
    | some e3 =>
      rw [h3] at hr3
      simp only [reduceCtorEq, Option.some.injEq, false_or] at hr3
      subst hr3
      have hs : scenarioRun env =
          ScenarioOutcome.failed "Modern TLS security profile from APIServer was not propagated to OpenShift Controller Manager observed config" := by
        simp [scenarioRun, hget, hupd, h2, h3]
      rw [hs]
      constructor
      · simp
      · intro msg hmsg
        right
        refine ⟨?_, rfl⟩
        injection hmsg with hh
        exact hh.symm
    | none =>
      have hs : scenarioRun env = ScenarioOutcome.passed := by
        simp [scenarioRun, hget, hupd, h2, h3]
      rw [hs]
      constructor
      · simp
      · intro msg hmsg
        simp at hmsg

/-- Witness for the amended C3: a setup-successful environment whose
asserted polls converge makes the scenario pass. -/
theorem scenarioFailuresFromAssertedPollsWitness :
    scenarioRun cexEnv = ScenarioOutcome.passed :=
  (scenarioFailuresFromAssertedPolls cexEnv apiServerSample rfl rfl).1.mpr
    ⟨by decide, by decide⟩

end OcmoE2E
